import Mathlib

/-!
Shallow embedding of the core data logic of the jet2-price-tracker dashboard.

The dashboard module contains two pure data-shaping functions plus a startup
fetch handler:

* `generateDemoData` — the deterministic synthetic price generator;
* `buildLiveMonths` — the normalizer for scraped per-month, per-room records;
* the one-shot fetch of `pricing_data.json`, whose promise chain resolves a
  live-data status.

Modelling conventions:

* JavaScript IEEE-754 numbers are idealized as exact rationals (`ℚ`) or, where
  the spec's trigonometric PRNG is concerned, reals (`ℝ`).  The generator is
  therefore polymorphic over a `LinearOrderedField` with a `FloorRing`
  structure; `Math.round` is Mathlib's `round` (both round half-up).
* The trig hash `i ↦ frac(sin(seed+i)·10000)` is the `hash` parameter of the
  generator; `sinHash` instantiates it with real `sin`.
* JS objects used as string-keyed maps are association lists; property
  assignment is `jsSet` (overwrite-or-append, preserving insertion order) and
  property lookup is `jsGet` (`none` models `undefined`).
* The JS `Infinity` sentinel used by the cheapest-price folds is the `none`
  of an `Option`; `ltInfB` models `<` against it.
* Fields that may be `undefined` in the scraped JSON (`room_types`, `rooms`,
  `month_label`, `month_key`, `price_pp`) are `Option`s.  Code paths that
  would raise a `TypeError` (reading a property of `undefined`) are modelled
  with `Except Unit`, `.error ()` standing for the thrown exception.
-/

set_option autoImplicit false

namespace Jet2

/-! ### Constants of the dashboard module -/

def MONTHS : List String :=
  ["Jan","Feb","Mar","Apr","May","Jun","Jul","Aug","Sep","Oct","Nov","Dec"]

def ROOM_TYPES : List String :=
  ["Standard Double","Superior Double","Family Room","Suite","Sea View Double"]

def BOARD_TYPES : List String :=
  ["Self Catering","Bed & Breakfast","Half Board","Full Board","All Inclusive"]

/-! ### JavaScript primitives -/

/-- JS `Array.prototype.indexOf` on string arrays: index of the first
occurrence, `-1` when absent. -/
def jsIndexOf : List String → String → ℤ
  | [], _ => -1
  | a :: t, s =>
    if a = s then 0
    else if jsIndexOf t s = -1 then -1 else jsIndexOf t s + 1

/-- JS comparison `p < ch` where `ch` may hold the `Infinity` sentinel
(modelled as `none`): everything is `<` than `Infinity`. -/
def ltInfB {β : Type} [LinearOrder β] (p : β) (ch : Option β) : Bool :=
  match ch with
  | none => true
  | some c => decide (p < c)

/-- JS object property write `obj[k] = v` on a string-keyed object represented
as an association list: overwrite in place when the key exists, append
otherwise (JS objects keep first-insertion order on overwrite). -/
def jsSet {β : Type} (l : List (String × β)) (k : String) (v : β) :
    List (String × β) :=
  if l.any (fun kv => decide (kv.1 = k)) then
    l.map (fun kv => if kv.1 = k then (k, v) else kv)
  else l ++ [(k, v)]

/-- JS object property read `obj[k]`; `none` models `undefined`. -/
def jsGet {β : Type} (l : List (String × β)) (k : String) : Option β :=
  (l.find? (fun kv => decide (kv.1 = k))).map (fun kv => kv.2)

/-- JS `label.split(" ")` (split on the single-space separator). -/
def splitSpaceAux : List Char → List Char → List String
  | [], acc => [String.mk acc.reverse]
  | c :: t, acc =>
    if c = ' ' then String.mk acc.reverse :: splitSpaceAux t []
    else splitSpaceAux t (c :: acc)

def jsSplitSpace (s : String) : List String :=
  splitSpaceAux s.data []

/-- Decimal-digit prefix accumulator for `jsParseInt`. -/
def digitsAux : List Char → ℕ → ℕ
  | [], acc => acc
  | c :: t, acc => if c.isDigit then digitsAux t (acc * 10 + (c.toNat - 48)) else acc

/-- Longest leading run of decimal digits; `none` when there is none
(JS `parseInt` returning `NaN`). -/
def digitsPrefix : List Char → Option ℕ
  | [] => none
  | c :: t => if c.isDigit then some (digitsAux t (c.toNat - 48)) else none

/-- JS `parseInt(s)` in base 10 (optional leading minus sign; leading
whitespace and `+` are not produced by the scraper's labels and are not
modelled).  `none` models `NaN`. -/
def jsParseInt (s : String) : Option ℤ :=
  match s.data with
  | [] => none
  | c :: t =>
    if c = '-' then (digitsPrefix t).map (fun n => -(n : ℤ))
    else (digitsPrefix (c :: t)).map (fun n => (n : ℤ))

/-- JS `a || b` for an optional string `a` against a string default:
`undefined` and `""` are falsy. -/
def jsOrStr (a : Option String) (b : String) : String :=
  match a with
  | none => b
  | some s => if s = "" then b else s

/-! ### The canonical month/room grid -/

structure Room where
  price : ℤ
  available : Bool
  perNight : ℤ
deriving DecidableEq

structure MonthEntry where
  month : String
  year : ℤ
  rooms : List (String × Room)
  cheapest : ℤ
  mostExpensive : ℤ
  avgPrice : ℤ
  availability : String
deriving DecidableEq

/-- Entry at position `i` of a grid (JS `data[i]`, with an inert default). -/
def entryAt (g : List MonthEntry) (i : ℕ) : MonthEntry :=
  g.getD i ⟨"", 0, [], 0, 0, 0, ""⟩

/-- Room at position `ri` (in object insertion order) of month `i`. -/
def roomAt (g : List MonthEntry) (i ri : ℕ) : Room :=
  ((entryAt g i).rooms.getD ri ("", ⟨0, false, 0⟩)).2

/-! ### Synthetic price generator (`generateDemoData`) -/

/-- `seed=(hotel+airport+duration+board).split("").reduce((a,c)=>a+c.charCodeAt(0),0)`.
JS string concatenation coerces the numeric duration to its decimal string;
`charCodeAt` agrees with `Char.toNat` on the BMP characters used here. -/
def seedOf (hotel airport : String) (dur : ℕ) (board : String) : ℕ :=
  ((hotel ++ airport ++ toString dur ++ board).data).foldl
    (fun a c => a + c.toNat) 0

/-- `rng=i=>{...sin(seed+i)...}`: the generator's PRNG stream, as the
abstract hash applied at `seed + i`. -/
def rngOf {α : Type} (hash : ℕ → α) (seed : ℕ) : ℕ → α :=
  fun i => hash (seed + i)

/-- `sm=[.7,.65,.75,.85,1,1.25,1.5,1.55,1.2,.9,.7,.65]` -/
def seasonalMult : List ℚ :=
  [7/10, 13/20, 3/4, 17/20, 1, 5/4, 3/2, 31/20, 6/5, 9/10, 7/10, 13/20]

/-- `dm=duration<=3?.5:duration<=5?.7:duration<=7?1:duration<=10?1.35:1.7` -/
def durMult (dur : ℕ) : ℚ :=
  if dur ≤ 3 then 1/2
  else if dur ≤ 5 then 7/10
  else if dur ≤ 7 then 1
  else if dur ≤ 10 then 27/20
  else 17/10

/-- `bm=BOARD_TYPES.indexOf(board)*.12+.85` -/
def boardMult (board : String) : ℚ :=
  ((jsIndexOf BOARD_TYPES board : ℤ) : ℚ) * (12/100) + 85/100

/-- `rm={"Standard Double":1,"Superior Double":1.2,"Sea View Double":1.35,
"Family Room":1.45,"Suite":1.9}` -/
def roomMultTable : List (String × ℚ) :=
  [("Standard Double", 1), ("Superior Double", 6/5), ("Sea View Double", 27/20),
   ("Family Room", 29/20), ("Suite", 19/10)]

/-- `rm[rt]`.  The generator only looks up members of `ROOM_TYPES`, on which
the table is total; the `0` default stands for JS `undefined` and is never
reached. -/
def roomMult (rt : String) : ℚ :=
  (jsGet roomMultTable rt).getD 0

/-- PRNG index stream of the per-room price jitter: `i*10+ri`. -/
def jitterIdx (i ri : ℕ) : ℕ := i * 10 + ri

/-- PRNG index stream of the per-room availability draw: `i*100+ri`. -/
def availIdx (i ri : ℕ) : ℕ := i * 100 + ri

/-- Body of the per-month loop of `generateDemoData` (loop offset `i`,
current month `m0` and year `y0` from `new Date()`). -/
def synthMonth {α : Type} [LinearOrderedField α] [FloorRing α]
    (rng : ℕ → α) (dur : ℕ) (bp dmv bmv : α) (m0 : ℕ) (y0 : ℤ) (i : ℕ) :
    MonthEntry :=
  let mi := (m0 + i) % 12
  let st := (ROOM_TYPES.enum).foldl
    (fun (st : List (String × Room) × Option ℤ × ℤ) (e : ℕ × String) =>
      let pz : ℤ := round (bp * ((seasonalMult.getD mi 0 : ℚ) : α) * dmv * bmv *
        ((roomMult e.2 : ℚ) : α) * (95/100 + rng (jitterIdx i e.1) * (1/10)))
      let av : Bool := decide ((15 : α)/100 < rng (availIdx i e.1))
      (jsSet st.1 e.2 ⟨pz, av, round ((pz : α) / (dur : α))⟩,
       if ltInfB pz st.2.1 then some pz else st.2.1,
       if st.2.2 < pz then pz else st.2.2))
    (([] : List (String × Room)), (none : Option ℤ), (0 : ℤ))
  { month := MONTHS.getD mi ""
    year := y0 + (if 12 ≤ m0 + i then 1 else 0)
    rooms := st.1
    -- the `ch` fold starts at the JS `Infinity` sentinel (`none`); it is
    -- pushed unnormalized, but `ROOM_TYPES` is nonempty so the sentinel
    -- never survives the fold and the `getD` default is never used
    cheapest := st.2.1.getD 0
    mostExpensive := st.2.2
    avgPrice := round ((((st.1.map (fun kv => kv.2.price)).sum : ℤ) : α) /
      (ROOM_TYPES.length : α))
    availability := toString (st.1.filter (fun kv => kv.2.available)).length ++
      "/" ++ toString ROOM_TYPES.length }

/-- `generateDemoData(hotel,airport,duration,board)`, with the trig hash and
the `new Date()` reading (current month `m0`, 0-based, and year `y0`)
exposed as parameters. -/
def generateDemoData {α : Type} [LinearOrderedField α] [FloorRing α]
    (hash : ℕ → α) (hotel airport : String) (dur : ℕ) (board : String)
    (m0 : ℕ) (y0 : ℤ) : List MonthEntry :=
  let seed := seedOf hotel airport dur board
  let rng := rngOf hash seed
  let bp : α := 400 + rng 1 * 600
  (List.range 12).map
    (synthMonth rng dur bp ((durMult dur : ℚ) : α) ((boardMult board : ℚ) : α) m0 y0)

/-! ### Live data normalizer (`buildLiveMonths`) -/

/-- A scraped per-room record: `{price_pp: ...}`; the field may be absent. -/
structure RoomRaw where
  price_pp : Option ℚ
deriving DecidableEq

/-- A scraped month record.  Every field may be absent in malformed data. -/
structure MonthRec where
  month_label : Option String
  month_key : Option String
  rooms : Option (List (String × RoomRaw))
deriving DecidableEq

/-- A scraped hotel record (the fields `buildLiveMonths` reads:
`_months` and `_roomTypes`, i.e. `months` and `room_types` of the artifact). -/
structure HotelRec where
  months : List MonthRec
  room_types : Option (List String)
deriving DecidableEq

/-- The room-type list the normalizer resolves: `h._roomTypes||ROOM_TYPES`
(in JS an empty array is truthy, so only `undefined` falls back). -/
def resolvedRT (h : HotelRec) : List String :=
  h.room_types.getD ROOM_TYPES

/-- Body of the `rt.forEach(r=>...)` loop of the live normalizer: state is
`(rooms, ch, mx)` where `ch` starts at the `Infinity` sentinel. -/
def liveStep (roomsMap : List (String × RoomRaw)) (d : ℕ)
    (st : List (String × Room) × Option ℚ × ℚ) (r : String) :
    List (String × Room) × Option ℚ × ℚ :=
  match jsGet roomsMap r with
  | some rd =>
    match rd.price_pp with
    | some pp =>
      if 0 < pp then
        (jsSet st.1 r ⟨round pp, true, round (pp / (d : ℚ))⟩,
         (if ltInfB pp st.2.1 then some pp else st.2.1),
         (if st.2.2 < pp then pp else st.2.2))
      else (jsSet st.1 r ⟨0, false, 0⟩, st.2.1, st.2.2)
    | none => (jsSet st.1 r ⟨0, false, 0⟩, st.2.1, st.2.2)
  | none => (jsSet st.1 r ⟨0, false, 0⟩, st.2.1, st.2.2)

/-- Body of `h._months.map(m=>...)`.  When the month record has no `rooms`
object, `m.rooms[r]` raises a `TypeError` (`rt` is nonempty at the call
site), modelled by `.error ()`. -/
def buildLiveMonth (rt : List String) (d : ℕ) (m : MonthRec) :
    Except Unit MonthEntry :=
  match m.rooms with
  | none => .error ()
  | some roomsMap =>
    let st := rt.foldl (liveStep roomsMap d)
      (([] : List (String × Room)), (none : Option ℚ), (0 : ℚ))
    let label := jsOrStr m.month_label (jsOrStr m.month_key "")
    let parts := jsSplitSpace label
    .ok
      { month := parts.getD 0 ""  -- `parts[0]||""`: `split` yields ≥ 1 piece
        year := (match jsParseInt (parts.getD 1 "") with
                 -- `parseInt(parts[1])||2026`: both `NaN` and `0` are falsy
                 | none => 2026
                 | some n => if n = 0 then 2026 else n)
        rooms := st.1
        cheapest := (match st.2.1 with  -- `ch===Infinity?0:Math.round(ch)`
                     | none => 0
                     | some c => round c)
        mostExpensive := round st.2.2
        avgPrice := round
          (((((st.1.map (fun kv => kv.2)).filter
               (fun r => decide (0 < r.price))).map (fun r => r.price)).sum : ℤ) /
           (max ((st.1.map (fun kv => kv.2)).filter
               (fun r => decide (0 < r.price))).length 1 : ℕ) : ℚ)
        availability := toString (st.1.filter (fun kv => kv.2.available)).length ++
          "/" ++ toString rt.length }

/-- JS `Array.prototype.map` with exception propagation: the months are
processed left to right and a thrown `TypeError` aborts the whole map. -/
def mapExcept (f : MonthRec → Except Unit MonthEntry) :
    List MonthRec → Except Unit (List MonthEntry)
  | [] => .ok []
  | m :: t =>
    match f m with
    | .error e => .error e
    | .ok b =>
      match mapExcept f t with
      | .error e => .error e
      | .ok bs => .ok (b :: bs)

/-- `buildLiveMonths(h,ap,d)`: `.ok none` models the `return null` paths,
`.error ()` a thrown `TypeError`.  The airport argument is unused, as in the
source. -/
def buildLiveMonths (h : HotelRec) (ap : String) (d : ℕ) :
    Except Unit (Option (List MonthEntry × List String)) :=
  if h.months = [] then .ok none
  else
    let rt := resolvedRT h
    if rt = [] then .ok none
    else
      match mapExcept (buildLiveMonth rt d) h.months with
      | .error e => .error e
      | .ok ms =>
        let valid := ms.filter (fun m => decide (0 < m.cheapest))
        if valid = [] then .ok none else .ok (some (valid, rt))

/-! ### Startup fetch of `pricing_data.json` -/

/-- The parsed artifact, as far as the fetch handler inspects it. -/
structure PricingData where
  hotels : Option (List HotelRec)

/-- Observable outcomes of the one-shot startup fetch. -/
inductive FetchOutcome where
  | networkError
  | nonOkStatus
  | parseError
  | fetched (d : PricingData)

/-- The `liveStatus` state: `"loading" | "ok" | "none"`. -/
inductive LiveStatus where
  | loading
  | ok
  | noData
deriving DecidableEq

/-- The promise chain of the mount effect:
`fetch(...).then(r=>{if(!r.ok)throw...;return r.json()}).then(d=>{if(d.hotels?.length){...setLiveStatus("ok")...}else setLiveStatus("none")}).catch(()=>setLiveStatus("none"))`,
as the status each outcome resolves to. -/
def resolveStatus : FetchOutcome → LiveStatus
  | .networkError => .noData
  | .nonOkStatus => .noData
  | .parseError => .noData
  | .fetched d =>
    match d.hotels with
    | none => .noData
    | some l => if l.length ≠ 0 then .ok else .noData

/-! ### Spec-side definitions

These follow the wording of the specification (not the source) and are only
used on the specification side of refinement statements. -/

/-- Modelled from the spec: "Derive an integer seed by summing the character
codes of the concatenation of all four input fields." -/
def specSeed (hotel airport : String) (dur : ℕ) (board : String) : ℕ :=
  ((hotel ++ airport ++ toString dur ++ board).data.map Char.toNat).sum

/-- Modelled from the spec: "a pseudo-random value in `[0,1)` for any integer
index `i` via `frac(sin(seed + i) * 10000)`". -/
noncomputable def specRand (seed i : ℕ) : ℝ :=
  Int.fract (Real.sin ((seed : ℝ) + (i : ℝ)) * 10000)

/-- The source's trig hash `x ↦ frac(sin(x)*10000)` (with `x = seed + i`),
over idealized reals. -/
noncomputable def sinHash : ℕ → ℝ :=
  fun n => Int.fract (Real.sin (n : ℝ) * 10000)

/-- Number of months in a successful normalizer result (0 for `null` or a
thrown error); used to state grid-size facts. -/
def liveMonthCount (r : Except Unit (Option (List MonthEntry × List String))) : ℕ :=
  match r with
  | .ok (some p) => p.1.length
  | _ => 0

/-- Room `ri` (insertion order) of month `i` of a successful normalizer
result, with an inert default for `null`/thrown results. -/
def liveRoomAt (r : Except Unit (Option (List MonthEntry × List String)))
    (i ri : ℕ) : Room :=
  match r with
  | .ok (some p) => roomAt p.1 i ri
  | _ => ⟨0, false, 0⟩

/-- Invariant tying a room stored by the live per-month fold to the running
cheapest accumulator `ch`: an unavailable room is zeroed; an available room
was built from a positive raw price `pp` with `price = round pp` and
`perNight = round (pp / d)`, and the accumulator is `some c` with `c ≤ pp`. -/
def roomInv (ch : Option ℚ) (d : ℕ) (r : Room) : Prop :=
  (r.available = false → r.price = 0 ∧ r.perNight = 0) ∧
  (r.available = true → ∃ pp : ℚ, 0 < pp ∧ r.price = round pp ∧
    r.perNight = round (pp / (d : ℚ)) ∧ ∃ c : ℚ, ch = some c ∧ c ≤ pp)

/-! ### Closed forms for the synthetic per-month loop -/

/-- The price the synthetic generator computes for room index `ri` / name
`rt` in month offset `i` (closed form of the loop body). -/
def synthPrice {α : Type} [LinearOrderedField α] [FloorRing α]
    (rng : ℕ → α) (bp dmv bmv : α) (m0 i ri : ℕ) (rt : String) : ℤ :=
  round (bp * ((seasonalMult.getD ((m0 + i) % 12) 0 : ℚ) : α) * dmv * bmv *
    ((roomMult rt : ℚ) : α) * (95/100 + rng (jitterIdx i ri) * (1/10)))

/-- The room record the synthetic generator stores for room index `ri` /
name `rt` in month offset `i` (closed form of the loop body). -/
def synthRoom {α : Type} [LinearOrderedField α] [FloorRing α]
    (rng : ℕ → α) (dur : ℕ) (bp dmv bmv : α) (m0 i ri : ℕ) (rt : String) : Room :=
  ⟨synthPrice rng bp dmv bmv m0 i ri rt,
   decide ((15 : α)/100 < rng (availIdx i ri)),
   round ((synthPrice rng bp dmv bmv m0 i ri rt : α) / (dur : α))⟩

end Jet2

namespace Jet2

/-! ### Basic lemmas -/

variable {α : Type} [LinearOrderedField α] [FloorRing α]

theorem ROOM_TYPES_enum :
    ROOM_TYPES.enum = [(0, "Standard Double"), (1, "Superior Double"),
      (2, "Family Room"), (3, "Suite"), (4, "Sea View Double")] := rfl

theorem ltInfB_none {β : Type} [LinearOrder β] (p : β) : ltInfB p none = true := rfl

theorem ifLtInf_none {β : Type} [LinearOrder β] (p : β) :
    (if ltInfB p none then some p else none) = some p := rfl

theorem ifLtInf_some {β : Type} [LinearOrder β] (p c : β) :
    (if ltInfB p (some c) then some p else some c) = some (min p c) := by
  by_cases h : p < c
  · simp [ltInfB, h, min_eq_left h.le]
  · simp [ltInfB, h, min_eq_right (not_lt.mp h)]

theorem ifMax {β : Type} [LinearOrder β] (c p : β) :
    (if c < p then p else c) = max p c := by
  by_cases h : c < p
  · simp [h, max_eq_left h.le]
  · simp [h, max_eq_right (not_lt.mp h)]

theorem minChain5 (a b c d e : ℤ) :
    List.min? [a, b, c, d, e] = some (min e (min d (min c (min b a)))) := by
  show some (List.foldl min a [b, c, d, e]) = _
  simp only [List.foldl_cons, List.foldl_nil]
  congr 1
  simp only [min_def]
  split_ifs <;> omega

set_option maxHeartbeats 1000000 in
theorem maxChain5 (a b c d e : ℤ) (ha : 0 ≤ a) :
    List.max? [a, b, c, d, e] = some (max e (max d (max c (max b (max a 0))))) := by
  rw [max_eq_left ha]
  show some (List.foldl max a [b, c, d, e]) = _
  simp only [List.foldl_cons, List.foldl_nil]
  congr 1
  simp only [max_def]
  split_ifs <;> omega

theorem generateDemoData_length (hash : ℕ → α) (hotel airport : String)
    (dur : ℕ) (board : String) (m0 : ℕ) (y0 : ℤ) :
    (generateDemoData hash hotel airport dur board m0 y0).length = 12 := by
  simp [generateDemoData]

theorem generateDemoData_entry (hash : ℕ → α) (hotel airport : String)
    (dur : ℕ) (board : String) (m0 : ℕ) (y0 : ℤ) (i : ℕ) (h : i < 12) :
    entryAt (generateDemoData hash hotel airport dur board m0 y0) i =
      synthMonth (rngOf hash (seedOf hotel airport dur board)) dur
        (400 + rngOf hash (seedOf hotel airport dur board) 1 * 600)
        ((durMult dur : ℚ) : α) ((boardMult board : ℚ) : α) m0 y0 i := by
  simp [entryAt, generateDemoData, List.getD_eq_getElem?_getD,
    List.getElem?_map, List.getElem?_range h]

theorem synthMonth_rooms (rng : ℕ → α) (dur : ℕ) (bp dmv bmv : α)
    (m0 : ℕ) (y0 : ℤ) (i : ℕ) :
    (synthMonth rng dur bp dmv bmv m0 y0 i).rooms =
      [("Standard Double", synthRoom rng dur bp dmv bmv m0 i 0 "Standard Double"),
       ("Superior Double", synthRoom rng dur bp dmv bmv m0 i 1 "Superior Double"),
       ("Family Room", synthRoom rng dur bp dmv bmv m0 i 2 "Family Room"),
       ("Suite", synthRoom rng dur bp dmv bmv m0 i 3 "Suite"),
       ("Sea View Double", synthRoom rng dur bp dmv bmv m0 i 4 "Sea View Double")] := rfl

theorem synthMonth_month (rng : ℕ → α) (dur : ℕ) (bp dmv bmv : α)
    (m0 : ℕ) (y0 : ℤ) (i : ℕ) :
    (synthMonth rng dur bp dmv bmv m0 y0 i).month = MONTHS.getD ((m0 + i) % 12) "" := rfl

theorem synthMonth_year (rng : ℕ → α) (dur : ℕ) (bp dmv bmv : α)
    (m0 : ℕ) (y0 : ℤ) (i : ℕ) :
    (synthMonth rng dur bp dmv bmv m0 y0 i).year =
      y0 + (if 12 ≤ m0 + i then 1 else 0) := rfl

theorem synthMonth_cheapest (rng : ℕ → α) (dur : ℕ) (bp dmv bmv : α)
    (m0 : ℕ) (y0 : ℤ) (i : ℕ) :
    (synthMonth rng dur bp dmv bmv m0 y0 i).cheapest =
      min (synthPrice rng bp dmv bmv m0 i 4 "Sea View Double")
        (min (synthPrice rng bp dmv bmv m0 i 3 "Suite")
          (min (synthPrice rng bp dmv bmv m0 i 2 "Family Room")
            (min (synthPrice rng bp dmv bmv m0 i 1 "Superior Double")
              (synthPrice rng bp dmv bmv m0 i 0 "Standard Double")))) := by
  simp only [synthMonth, ROOM_TYPES_enum, List.foldl_cons, List.foldl_nil,
    ifLtInf_none, ifLtInf_some, Option.getD_some, synthPrice]

theorem synthMonth_mostExpensive (rng : ℕ → α) (dur : ℕ) (bp dmv bmv : α)
    (m0 : ℕ) (y0 : ℤ) (i : ℕ) :
    (synthMonth rng dur bp dmv bmv m0 y0 i).mostExpensive =
      max (synthPrice rng bp dmv bmv m0 i 4 "Sea View Double")
        (max (synthPrice rng bp dmv bmv m0 i 3 "Suite")
          (max (synthPrice rng bp dmv bmv m0 i 2 "Family Room")
            (max (synthPrice rng bp dmv bmv m0 i 1 "Superior Double")
              (max (synthPrice rng bp dmv bmv m0 i 0 "Standard Double") 0)))) := by
  simp only [synthMonth, ROOM_TYPES_enum, List.foldl_cons, List.foldl_nil,
    ifMax, synthPrice]

/-! ### Positivity facts for the synthetic prices -/

theorem seasonalMult_getD_pos (m : ℕ) (h : m < 12) :
    0 < seasonalMult.getD m 0 := by
  interval_cases m <;> norm_num [seasonalMult]

theorem durMult_pos (dur : ℕ) : 0 < durMult dur := by
  rw [durMult]
  split_ifs <;> norm_num

theorem jsIndexOf_ge (l : List String) (s : String) : -1 ≤ jsIndexOf l s := by
  induction l with
  | nil => simp [jsIndexOf]
  | cons a t ih =>
    rw [jsIndexOf]
    split_ifs <;> omega

theorem boardMult_pos (board : String) : 0 < boardMult board := by
  have h := jsIndexOf_ge BOARD_TYPES board
  have h2 : (-1 : ℚ) ≤ ((jsIndexOf BOARD_TYPES board : ℤ) : ℚ) := by exact_mod_cast h
  rw [boardMult]
  nlinarith

theorem roomMult_standard : roomMult "Standard Double" = 1 := rfl
theorem roomMult_superior : roomMult "Superior Double" = 6/5 := rfl
theorem roomMult_family : roomMult "Family Room" = 29/20 := rfl
theorem roomMult_suite : roomMult "Suite" = 19/10 := rfl
theorem roomMult_seaview : roomMult "Sea View Double" = 27/20 := rfl

theorem synthPrice_nonneg (hash : ℕ → ℚ) (hr : ∀ n, 0 ≤ hash n) (s : ℕ)
    (dur : ℕ) (board : String) (m0 i ri : ℕ) (rt : String)
    (hrm : 0 < roomMult rt) :
    0 ≤ synthPrice (rngOf hash s) (400 + rngOf hash s 1 * 600)
        ((durMult dur : ℚ) : ℚ) ((boardMult board : ℚ) : ℚ) m0 i ri rt := by
  have hbp : (0 : ℚ) ≤ 400 + rngOf hash s 1 * 600 := by
    have := hr (s + 1)
    simp only [rngOf]
    nlinarith
  have hsm := seasonalMult_getD_pos ((m0 + i) % 12) (Nat.mod_lt _ (by norm_num))
  have hdm := durMult_pos dur
  have hbm := boardMult_pos board
  have hj : (0 : ℚ) ≤ 95/100 + rngOf hash s (jitterIdx i ri) * (1/10) := by
    have := hr (s + jitterIdx i ri)
    simp only [rngOf]
    nlinarith
  have hprod : (0 : ℚ) ≤ (400 + rngOf hash s 1 * 600) *
      ((seasonalMult.getD ((m0 + i) % 12) 0 : ℚ) : ℚ) * ((durMult dur : ℚ) : ℚ) *
      ((boardMult board : ℚ) : ℚ) * ((roomMult rt : ℚ) : ℚ) *
      (95/100 + rngOf hash s (jitterIdx i ri) * (1/10)) := by
    have h1 := mul_nonneg hbp hsm.le
    have h2 := mul_nonneg h1 hdm.le
    have h3 := mul_nonneg h2 hbm.le
    have h4 := mul_nonneg h3 hrm.le
    exact mul_nonneg h4 hj
  rw [synthPrice, round_eq]
  refine Int.le_floor.mpr ?_
  push_cast
  linarith

/-! ### C1 -/

/-- C1 (amended): in every month entry produced by the Synthetic Generator,
`cheapest` is the minimum and `mostExpensive` the maximum of the prices of
ALL five rooms, availability being ignored by the aggregation (the PRNG is
assumed to respect its `[0,1)` contract).  The claim's original statement —
minimum/maximum over available rooms only, with `0` when no room is
available — is refuted by `C1_counterexample`. -/
theorem C1_minmax_over_all_rooms (hash : ℕ → ℚ)
    (hr : ∀ n, 0 ≤ hash n ∧ hash n < 1)
    (hotel airport : String) (dur : ℕ) (board : String) (m0 : ℕ) (y0 : ℤ)
    (i : Fin 12) :
    (((entryAt (generateDemoData hash hotel airport dur board m0 y0) i.val).rooms.map
        (fun kv => kv.2.price)).min? =
      some (entryAt (generateDemoData hash hotel airport dur board m0 y0) i.val).cheapest) ∧
    (((entryAt (generateDemoData hash hotel airport dur board m0 y0) i.val).rooms.map
        (fun kv => kv.2.price)).max? =
      some (entryAt (generateDemoData hash hotel airport dur board m0 y0) i.val).mostExpensive) := by
  rw [generateDemoData_entry hash hotel airport dur board m0 y0 i.val i.isLt,
    synthMonth_rooms, synthMonth_cheapest, synthMonth_mostExpensive]
  simp only [List.map_cons, List.map_nil, synthRoom, Rat.cast_id]
  constructor
  · exact minChain5 _ _ _ _ _
  · exact maxChain5 _ _ _ _ _
      (synthPrice_nonneg hash (fun n => (hr n).1) (seedOf hotel airport dur board)
        dur board m0 i.val 0 "Standard Double" (by rw [roomMult_standard]; norm_num))

/-- Witness for C1: the theorem applied at the constant-zero hash (a valid
member of the `[0,1)` PRNG family) and the spec's scenario inputs. -/
theorem C1_witness :
    (((entryAt (generateDemoData (fun _ => (0 : ℚ)) "Sunwing Alcudia Beach" "MAN" 7
          "Half Board" 0 2026) 0).rooms.map (fun kv => kv.2.price)).min? =
      some (entryAt (generateDemoData (fun _ => (0 : ℚ)) "Sunwing Alcudia Beach" "MAN" 7
          "Half Board" 0 2026) 0).cheapest) ∧
    (((entryAt (generateDemoData (fun _ => (0 : ℚ)) "Sunwing Alcudia Beach" "MAN" 7
          "Half Board" 0 2026) 0).rooms.map (fun kv => kv.2.price)).max? =
      some (entryAt (generateDemoData (fun _ => (0 : ℚ)) "Sunwing Alcudia Beach" "MAN" 7
          "Half Board" 0 2026) 0).mostExpensive) :=
  C1_minmax_over_all_rooms (fun _ => 0) (fun _ => ⟨le_refl 0, by norm_num⟩)
    "Sunwing Alcudia Beach" "MAN" 7 "Half Board" 0 2026 ⟨0, by norm_num⟩

/-- Counterexample to C1 as stated: at the constant-zero hash (within the
PRNG's `[0,1)` contract) every availability draw fails (`0 > 0.15` is
false), so the first generated month has no available room — yet its
`cheapest` is not normalized to `0`: it is the minimum over all (positive)
room prices. -/
theorem C1_counterexample :
    ((entryAt (generateDemoData (fun _ => (0 : ℚ)) "Sunwing Alcudia Beach" "MAN" 7
        "Half Board" 0 2026) 0).rooms.all (fun kv => !kv.2.available)) = true ∧
    (entryAt (generateDemoData (fun _ => (0 : ℚ)) "Sunwing Alcudia Beach" "MAN" 7
        "Half Board" 0 2026) 0).cheapest ≠ 0 := by
  rw [generateDemoData_entry (fun _ => (0 : ℚ)) "Sunwing Alcudia Beach" "MAN" 7
      "Half Board" 0 2026 0 (by norm_num),
    synthMonth_rooms, synthMonth_cheapest]
  constructor
  · simp only [List.all_cons, List.all_nil, synthRoom, rngOf]
    rw [show (decide ((15 : ℚ)/100 < 0)) = false from decide_eq_false (by norm_num)]
    simp
  · simp only [Rat.cast_id]
    norm_num [synthPrice, round_eq, rngOf, jitterIdx, min_def,
      roomMult_standard, roomMult_superior, roomMult_family, roomMult_suite,
      roomMult_seaview, boardMult,
      show jsIndexOf BOARD_TYPES "Half Board" = (2 : ℤ) from rfl,
      show seasonalMult.getD ((0 + 0) % 12) 0 = 7/10 from rfl,
      show (seasonalMult[(0 : ℕ)]?.getD 0 : ℚ) = 7/10 from rfl,
      show durMult 7 = 1 from rfl]

/-! ### C7 -/

/-- C7 (amended): the Synthetic Generator is a pure function of the four
query inputs, the pointwise behavior of its PRNG hash, and the clock reading
(current month and year from `new Date()`) — there is no other hidden state,
so repeated calls observing the same current month/year return identical
sequences.  The original claim — byte-identical output across arbitrary
repeated calls — fails across a month boundary, see `C7_counterexample`. -/
theorem C7_deterministic_for_fixed_clock :
    ∀ (hash1 hash2 : ℕ → ℝ) (hotel airport : String) (dur : ℕ) (board : String)
      (m0 : ℕ) (y0 : ℤ), (∀ n, hash1 n = hash2 n) →
      generateDemoData hash1 hotel airport dur board m0 y0 =
        generateDemoData hash2 hotel airport dur board m0 y0 := by
  intro hash1 hash2 hotel airport dur board m0 y0 hh
  rw [funext hh]

/-- Witness for C7: the spec's scenario — `generate("Sunwing Alcudia Beach",
"MAN", 7, "Half Board")` called twice (same clock reading) — gives identical
sequences. -/
theorem C7_witness :
    generateDemoData sinHash "Sunwing Alcudia Beach" "MAN" 7 "Half Board" 0 2026 =
      generateDemoData sinHash "Sunwing Alcudia Beach" "MAN" 7 "Half Board" 0 2026 :=
  C7_deterministic_for_fixed_clock sinHash sinHash "Sunwing Alcudia Beach" "MAN" 7
    "Half Board" 0 2026 (fun _ => rfl)

/-- Counterexample to C7 as stated: the generator reads `new Date()`, so two
calls with the spec's scenario inputs made in different current months
(December 2026 rollover aside, here month 0 vs month 1 of 2026) give
different outputs — already their first month labels differ. -/
theorem C7_counterexample :
    generateDemoData sinHash "Sunwing Alcudia Beach" "MAN" 7 "Half Board" 0 2026 ≠
      generateDemoData sinHash "Sunwing Alcudia Beach" "MAN" 7 "Half Board" 1 2026 := by
  intro h
  have h1 : (entryAt (generateDemoData sinHash "Sunwing Alcudia Beach" "MAN" 7
        "Half Board" 0 2026) 0).month =
      (entryAt (generateDemoData sinHash "Sunwing Alcudia Beach" "MAN" 7
        "Half Board" 1 2026) 0).month := by rw [h]
  rw [generateDemoData_entry sinHash "Sunwing Alcudia Beach" "MAN" 7 "Half Board"
      0 2026 0 (by norm_num),
    generateDemoData_entry sinHash "Sunwing Alcudia Beach" "MAN" 7 "Half Board"
      1 2026 0 (by norm_num),
    synthMonth_month, synthMonth_month] at h1
  exact absurd h1 (by decide)

/-! ### C8 -/

/-- C8 (amended): a room of the Synthetic Generator is available exactly when
its availability draw `rand(i*100 + roomIndex)` exceeds `0.15`; the
availability index stream `i*100 + roomIndex` differs from the jitter stream
`i*10 + roomIndex` for every month offset `i ≥ 1`, but the two coincide for
the first month (`i = 0`), see `C8_counterexample`. -/
theorem C8_availability_rule_and_index_streams :
    (∀ (hash : ℕ → ℚ) (hotel airport : String) (dur : ℕ) (board : String)
        (m0 : ℕ) (y0 : ℤ) (i : Fin 12) (ri : Fin 5),
      (roomAt (generateDemoData hash hotel airport dur board m0 y0) i.val ri.val).available
          = true ↔
        (15 : ℚ)/100 < rngOf hash (seedOf hotel airport dur board) (availIdx i.val ri.val)) ∧
    (∀ i ri : ℕ, 1 ≤ i → availIdx i ri ≠ jitterIdx i ri) := by
  constructor
  · intro hash hotel airport dur board m0 y0 i ri
    rw [roomAt, generateDemoData_entry hash hotel airport dur board m0 y0 i.val i.isLt,
      synthMonth_rooms]
    fin_cases ri <;>
      simp [synthRoom, List.getD_cons_zero, List.getD_cons_succ, decide_eq_true_eq]
  · intro i ri h
    simp only [availIdx, jitterIdx, ne_eq]
    omega

/-- Witness for C8: the index streams are distinct at month offset 1. -/
theorem C8_witness : availIdx 1 0 ≠ jitterIdx 1 0 :=
  C8_availability_rule_and_index_streams.2 1 0 (le_refl 1)

/-- Counterexample to C8 as stated: for the first generated month (`i = 0`)
the availability index equals the jitter index for every room, so the
availability draw reuses exactly the PRNG value that jitters the price. -/
theorem C8_counterexample : availIdx 0 0 = jitterIdx 0 0 := rfl

/-! ### Lemmas on the live per-month fold -/

theorem jsSet_mem {β : Type} (l : List (String × β)) (k : String) (v : β)
    (kv : String × β) (h : kv ∈ jsSet l k v) : kv ∈ l ∨ kv = (k, v) := by
  rw [jsSet] at h
  split_ifs at h with hc
  · rcases List.mem_map.mp h with ⟨x, hx, hfx⟩
    by_cases hk : x.1 = k
    · right
      rw [← hfx]
      simp [hk]
    · left
      rw [← hfx]
      simpa [hk] using hx
  · rcases List.mem_append.mp h with h1 | h1
    · exact Or.inl h1
    · exact Or.inr (by simpa using h1)

theorem chAfter_le_self (pp : ℚ) (ch : Option ℚ) :
    ∃ c : ℚ, (if ltInfB pp ch then some pp else ch) = some c ∧ c ≤ pp := by
  cases ch with
  | none => exact ⟨pp, rfl, le_refl pp⟩
  | some c =>
    by_cases h : pp < c
    · exact ⟨pp, by simp [ltInfB, h], le_refl pp⟩
    · exact ⟨c, by simp [ltInfB, h], not_lt.mp h⟩

theorem chAfter_le_mono (pp q : ℚ) (ch : Option ℚ)
    (h : ∃ c : ℚ, ch = some c ∧ c ≤ q) :
    ∃ c : ℚ, (if ltInfB pp ch then some pp else ch) = some c ∧ c ≤ q := by
  rcases h with ⟨c, hc, hcq⟩
  subst hc
  by_cases h : pp < c
  · exact ⟨pp, by simp [ltInfB, h], h.le.trans hcq⟩
  · exact ⟨c, by simp [ltInfB, h], hcq⟩

theorem liveStep_inv (roomsMap : List (String × RoomRaw)) (d : ℕ)
    (st : List (String × Room) × Option ℚ × ℚ) (r : String)
    (hst : ∀ kv ∈ st.1, roomInv st.2.1 d kv.2) :
    ∀ kv ∈ (liveStep roomsMap d st r).1,
      roomInv (liveStep roomsMap d st r).2.1 d kv.2 := by
  intro kv hkv
  rw [liveStep] at hkv ⊢
  cases hg : jsGet roomsMap r with
  | none =>
    simp only [hg] at hkv ⊢
    rcases jsSet_mem _ _ _ _ hkv with h1 | h1
    · exact hst kv h1
    · rw [h1]
      exact ⟨fun _ => ⟨rfl, rfl⟩, fun h => by simp at h⟩
  | some rd =>
    cases hpp : rd.price_pp with
    | none =>
      simp only [hg, hpp] at hkv ⊢
      rcases jsSet_mem _ _ _ _ hkv with h1 | h1
      · exact hst kv h1
      · rw [h1]
        exact ⟨fun _ => ⟨rfl, rfl⟩, fun h => by simp at h⟩
    | some pp =>
      by_cases hpos : 0 < pp
      · simp only [hg, hpp, if_pos hpos] at hkv ⊢
        rcases jsSet_mem _ _ _ _ hkv with h1 | h1
        · rcases hst kv h1 with ⟨hfalse, htrue⟩
          refine ⟨hfalse, fun hav => ?_⟩
          rcases htrue hav with ⟨q, hq, hpr, hpn, hch⟩
          exact ⟨q, hq, hpr, hpn, chAfter_le_mono pp q st.2.1 hch⟩
        · rw [h1]
          refine ⟨fun h => by simp at h, fun _ => ?_⟩
          exact ⟨pp, hpos, rfl, rfl, chAfter_le_self pp st.2.1⟩
      · simp only [hg, hpp, if_neg hpos] at hkv ⊢
        rcases jsSet_mem _ _ _ _ hkv with h1 | h1
        · exact hst kv h1
        · rw [h1]
          exact ⟨fun _ => ⟨rfl, rfl⟩, fun h => by simp at h⟩

theorem liveFold_inv (roomsMap : List (String × RoomRaw)) (d : ℕ)
    (rt : List String) :
    ∀ (st : List (String × Room) × Option ℚ × ℚ),
      (∀ kv ∈ st.1, roomInv st.2.1 d kv.2) →
      ∀ kv ∈ (rt.foldl (liveStep roomsMap d) st).1,
        roomInv (rt.foldl (liveStep roomsMap d) st).2.1 d kv.2 := by
  induction rt with
  | nil => intro st h; simpa using h
  | cons a t ih =>
    intro st h
    rw [List.foldl_cons]
    exact ih _ (liveStep_inv roomsMap d st a h)

theorem buildLiveMonth_error (rt : List String) (d : ℕ) (m : MonthRec)
    (hm : m.rooms = none) : buildLiveMonth rt d m = .error () := by
  rw [buildLiveMonth, hm]

theorem buildLiveMonth_ok (rt : List String) (d : ℕ) (m : MonthRec)
    (roomsMap : List (String × RoomRaw)) (hm : m.rooms = some roomsMap) :
    ∃ e, buildLiveMonth rt d m = .ok e := by
  rw [buildLiveMonth, hm]
  exact ⟨_, rfl⟩

theorem buildLiveMonth_rooms_spec (rt : List String) (d : ℕ) (m : MonthRec)
    (e : MonthEntry) (he : buildLiveMonth rt d m = .ok e) :
    ∀ kv ∈ e.rooms,
      (kv.2.available = false → kv.2.price = 0 ∧ kv.2.perNight = 0) ∧
      (kv.2.available = true → ∃ pp c : ℚ, 0 < pp ∧ kv.2.price = round pp ∧
        kv.2.perNight = round (pp / (d : ℚ)) ∧ e.cheapest = round c ∧ c ≤ pp) := by
  cases hm : m.rooms with
  | none =>
    rw [buildLiveMonth, hm] at he
    exact absurd he (by simp)
  | some roomsMap =>
    rw [buildLiveMonth, hm] at he
    simp only [Except.ok.injEq] at he
    subst he
    intro kv hkv
    simp only at hkv
    have hinv := liveFold_inv roomsMap d rt
      (([] : List (String × Room)), (none : Option ℚ), (0 : ℚ))
      (by intro kv h; simp at h) kv hkv
    rcases hinv with ⟨hfalse, htrue⟩
    refine ⟨hfalse, fun hav => ?_⟩
    rcases htrue hav with ⟨pp, hpp, hpr, hpn, c, hc, hcq⟩
    refine ⟨pp, c, hpp, hpr, hpn, ?_, hcq⟩
    simp only [hc]

theorem mapExcept_length (f : MonthRec → Except Unit MonthEntry) :
    ∀ (l : List MonthRec) (ms : List MonthEntry),
      mapExcept f l = .ok ms → ms.length = l.length := by
  intro l
  induction l with
  | nil =>
    intro ms h
    rw [mapExcept] at h
    simp only [Except.ok.injEq] at h
    rw [← h]
    rfl
  | cons m t ih =>
    intro ms h
    rw [mapExcept] at h
    cases hfm : f m with
    | error e => rw [hfm] at h; exact absurd h (by simp)
    | ok b =>
      rw [hfm] at h
      cases hmt : mapExcept f t with
      | error e => rw [hmt] at h; exact absurd h (by simp)
      | ok bs =>
        rw [hmt] at h
        simp only [Except.ok.injEq] at h
        rw [← h]
        simp [ih bs hmt]

theorem mapExcept_mem (f : MonthRec → Except Unit MonthEntry) :
    ∀ (l : List MonthRec) (ms : List MonthEntry),
      mapExcept f l = .ok ms → ∀ e ∈ ms, ∃ m ∈ l, f m = .ok e := by
  intro l
  induction l with
  | nil =>
    intro ms h e he
    rw [mapExcept] at h
    simp only [Except.ok.injEq] at h
    rw [← h] at he
    simp at he
  | cons m t ih =>
    intro ms h e he
    rw [mapExcept] at h
    cases hfm : f m with
    | error er => rw [hfm] at h; exact absurd h (by simp)
    | ok b =>
      rw [hfm] at h
      cases hmt : mapExcept f t with
      | error er => rw [hmt] at h; exact absurd h (by simp)
      | ok bs =>
        rw [hmt] at h
        simp only [Except.ok.injEq] at h
        rw [← h] at he
        rcases List.mem_cons.mp he with h1 | h1
        · exact ⟨m, List.mem_cons_self m t, by rw [hfm, h1]⟩
        · rcases ih bs hmt e h1 with ⟨m', hm', hfm'⟩
          exact ⟨m', List.mem_cons_of_mem m hm', hfm'⟩

theorem mapExcept_total (f : MonthRec → Except Unit MonthEntry) :
    ∀ l : List MonthRec, (∀ m ∈ l, ∃ e, f m = .ok e) →
      ∃ ms, mapExcept f l = .ok ms := by
  intro l
  induction l with
  | nil => intro _; exact ⟨[], rfl⟩
  | cons m t ih =>
    intro h
    rcases h m (List.mem_cons_self m t) with ⟨e, he⟩
    rcases ih (fun m' hm' => h m' (List.mem_cons_of_mem m hm')) with ⟨ms, hms⟩
    refine ⟨e :: ms, ?_⟩
    rw [mapExcept, he, hms]

theorem buildLiveMonths_empty (h : HotelRec) (ap : String) (d : ℕ)
    (hm : h.months = []) : buildLiveMonths h ap d = .ok none := by
  rw [buildLiveMonths, if_pos hm]

theorem buildLiveMonths_emptyRT (h : HotelRec) (ap : String) (d : ℕ)
    (hrt : resolvedRT h = []) : buildLiveMonths h ap d = .ok none := by
  by_cases hm : h.months = []
  · exact buildLiveMonths_empty h ap d hm
  · rw [buildLiveMonths, if_neg hm]
    simp [hrt]

theorem buildLiveMonths_ok_some (h : HotelRec) (ap : String) (d : ℕ)
    (ms : List MonthEntry) (rts : List String)
    (he : buildLiveMonths h ap d = .ok (some (ms, rts))) :
    rts = resolvedRT h ∧ ms ≠ [] ∧
      ∃ ms0, mapExcept (buildLiveMonth (resolvedRT h) d) h.months = .ok ms0 ∧
        ms = ms0.filter (fun m => decide (0 < m.cheapest)) := by
  by_cases hm : h.months = []
  · rw [buildLiveMonths_empty h ap d hm] at he
    exact absurd he (by simp)
  · rw [buildLiveMonths, if_neg hm] at he
    by_cases hrt : resolvedRT h = []
    · simp [hrt] at he
    · simp only [if_neg hrt] at he
      split at he
      · exact absurd he (by simp)
      · rename_i ms0 heq
        by_cases hv : ms0.filter (fun m => decide (0 < m.cheapest)) = []
        · rw [if_pos hv] at he
          exact absurd he (by simp)
        · rw [if_neg hv] at he
          simp only [Except.ok.injEq, Option.some.injEq, Prod.mk.injEq] at he
          exact ⟨he.2.symm, by rw [← he.1]; exact hv, ms0, heq, he.1.symm⟩

/-! ### C2 -/

/-- C2 (amended): the Live Data Normalizer returns `null` (not an exception)
when the hotel record has no months, when the resolved room-type list is
empty, and (by way of the filter) a successful non-`null` result always has
at least one month, each with `cheapest > 0`.  It does not throw as long as
every month record carries a `rooms` object; however — refuting the claim's
blanket "never raising an exception on any structurally invalid input" — a
month record without a `rooms` object raises a `TypeError`
(`C2_counterexample`). -/
theorem C2_null_not_throw :
    (∀ (h : HotelRec) (ap : String) (d : ℕ), h.months = [] →
      buildLiveMonths h ap d = .ok none) ∧
    (∀ (h : HotelRec) (ap : String) (d : ℕ), resolvedRT h = [] →
      buildLiveMonths h ap d = .ok none) ∧
    (∀ (h : HotelRec) (ap : String) (d : ℕ),
      (∀ m ∈ h.months, m.rooms ≠ none) → ∃ r, buildLiveMonths h ap d = .ok r) ∧
    (∀ (h : HotelRec) (ap : String) (d : ℕ) (ms0 : List MonthEntry),
      mapExcept (buildLiveMonth (resolvedRT h) d) h.months = .ok ms0 →
      ms0.filter (fun m => decide (0 < m.cheapest)) = [] →
      buildLiveMonths h ap d = .ok none) ∧
    (∀ (h : HotelRec) (ap : String) (d : ℕ) (ms : List MonthEntry)
        (rts : List String), buildLiveMonths h ap d = .ok (some (ms, rts)) →
      ms ≠ [] ∧ ∀ e ∈ ms, 0 < e.cheapest) := by
  refine ⟨buildLiveMonths_empty, buildLiveMonths_emptyRT, ?_, ?_, ?_⟩
  · intro h ap d hall
    by_cases hm : h.months = []
    · exact ⟨none, buildLiveMonths_empty h ap d hm⟩
    · by_cases hrt : resolvedRT h = []
      · exact ⟨none, buildLiveMonths_emptyRT h ap d hrt⟩
      · have htot : ∀ m ∈ h.months, ∃ e, buildLiveMonth (resolvedRT h) d m = .ok e := by
          intro m hmem
          cases hr : m.rooms with
          | none => exact absurd hr (hall m hmem)
          | some roomsMap => exact buildLiveMonth_ok _ d m roomsMap hr
        rcases mapExcept_total _ h.months htot with ⟨ms0, hms0⟩
        rw [buildLiveMonths, if_neg hm]
        simp only [if_neg hrt, hms0]
        by_cases hv : ms0.filter (fun m => decide (0 < m.cheapest)) = []
        · rw [if_pos hv]
          exact ⟨none, rfl⟩
        · rw [if_neg hv]
          exact ⟨_, rfl⟩
  · intro h ap d ms0 hms0 hv
    by_cases hm : h.months = []
    · exact buildLiveMonths_empty h ap d hm
    · by_cases hrt : resolvedRT h = []
      · exact buildLiveMonths_emptyRT h ap d hrt
      · rw [buildLiveMonths, if_neg hm]
        simp only [if_neg hrt, hms0]
        rw [if_pos hv]
  · intro h ap d ms rts he
    rcases buildLiveMonths_ok_some h ap d ms rts he with ⟨_, hne, ms0, _, hfil⟩
    refine ⟨hne, fun e hemem => ?_⟩
    rw [hfil] at hemem
    have := List.of_mem_filter hemem
    simpa using this

/-- Witness for C2: the no-months `null` path at a concrete record. -/
theorem C2_witness :
    buildLiveMonths ⟨[], some ["Suite"]⟩ "MAN" 7 = .ok none :=
  C2_null_not_throw.1 ⟨[], some ["Suite"]⟩ "MAN" 7 rfl

/-- Counterexample to C2 as stated: a structurally invalid record — one
scraped month without a `rooms` object — makes the normalizer evaluate
`m.rooms[r]` on `undefined`, raising a `TypeError` instead of returning
`null`. -/
theorem C2_counterexample :
    buildLiveMonths ⟨[⟨some "Jun 2026", none, none⟩], some ["Suite"]⟩ "MAN" 7 =
      .error () := rfl

/-! ### C10 -/

/-- C10 (amended): an absent `room_types` field is not by itself a `null`
result: the normalizer silently substitutes the default five-room-type list
and proceeds exactly as if `room_types` were that list; a `room_types` field
that is present but empty always yields `null`.  An absent `room_types` does
not however guarantee a non-`null` result: all months can still be filtered
out (`C10_counterexample`). -/
theorem C10_roomtypes_fallback :
    (∀ (h : HotelRec) (ap : String) (d : ℕ), h.room_types = none →
      buildLiveMonths h ap d = buildLiveMonths ⟨h.months, some ROOM_TYPES⟩ ap d) ∧
    (∀ (h : HotelRec) (ap : String) (d : ℕ), h.room_types = some [] →
      buildLiveMonths h ap d = .ok none) := by
  constructor
  · intro h ap d hrt
    rw [buildLiveMonths, buildLiveMonths]
    simp [resolvedRT, hrt]
  · intro h ap d hrt
    exact buildLiveMonths_emptyRT h ap d (by simp [resolvedRT, hrt])

/-- Witness for C10: a present-but-empty `room_types` yields `null` at a
concrete record. -/
theorem C10_witness :
    buildLiveMonths ⟨[⟨some "Jun 2026", none, some []⟩], some []⟩ "MAN" 7 =
      .ok none :=
  C10_roomtypes_fallback.2 ⟨[⟨some "Jun 2026", none, some []⟩], some []⟩ "MAN" 7 rfl

/-- Counterexample to C10 as stated: a record with one month (whose `rooms`
object is present but offers no prices) and an absent `room_types` field
still yields `null` — the claim's "the normalizer does not return null" is
too strong; only the room-type fallback itself is unconditional. -/
theorem C10_counterexample :
    (⟨[⟨some "Jun 2026", none, some []⟩], none⟩ : HotelRec).months ≠ [] ∧
    (⟨[⟨some "Jun 2026", none, some []⟩], none⟩ : HotelRec).room_types = none ∧
    buildLiveMonths ⟨[⟨some "Jun 2026", none, some []⟩], none⟩ "MAN" 7 =
      .ok none := by
  refine ⟨by simp, rfl, ?_⟩
  rfl

/-! ### Concrete evaluations of the normalizer -/

theorem jsSet_nil {β : Type} (k : String) (v : β) : jsSet [] k v = [(k, v)] := rfl

theorem buildLive_month450 :
    buildLiveMonth ["Suite"] 7 ⟨some "Jun 2026", none, some [("Suite", ⟨some 450⟩)]⟩ =
      .ok ⟨"Jun", 2026, [("Suite", ⟨450, true, 64⟩)], 450, 450, 450, "1/1"⟩ := by
  rw [buildLiveMonth]
  simp only [List.foldl_cons, List.foldl_nil, liveStep,
    show jsGet [("Suite", RoomRaw.mk (some (450 : ℚ)))] "Suite" =
      some (RoomRaw.mk (some (450 : ℚ))) from rfl,
    jsSet_nil]
  norm_num [round_eq, ltInfB]
  exact ⟨rfl, rfl, rfl⟩

theorem buildLive_rec450 :
    buildLiveMonths ⟨[⟨some "Jun 2026", none, some [("Suite", ⟨some 450⟩)]⟩],
        some ["Suite"]⟩ "MAN" 7 =
      .ok (some ([⟨"Jun", 2026, [("Suite", ⟨450, true, 64⟩)], 450, 450, 450, "1/1"⟩],
        ["Suite"])) := by
  rw [buildLiveMonths, if_neg (by simp)]
  simp only [show resolvedRT ⟨[⟨some "Jun 2026", none,
    some [("Suite", ⟨some (450 : ℚ)⟩)]⟩], some ["Suite"]⟩ = ["Suite"] from rfl]
  rw [if_neg (by simp)]
  rw [show mapExcept (buildLiveMonth ["Suite"] 7)
        [⟨some "Jun 2026", none, some [("Suite", ⟨some 450⟩)]⟩] =
      .ok [⟨"Jun", 2026, [("Suite", ⟨450, true, 64⟩)], 450, 450, 450, "1/1"⟩] from by
    rw [mapExcept, buildLive_month450]
    rfl]
  rfl

theorem buildLive_month23 :
    buildLiveMonth ["Suite"] 10 ⟨some "Jun 2026", none, some [("Suite", ⟨some (23/5)⟩)]⟩ =
      .ok ⟨"Jun", 2026, [("Suite", ⟨5, true, 0⟩)], 5, 5, 5, "1/1"⟩ := by
  rw [buildLiveMonth]
  simp only [List.foldl_cons, List.foldl_nil, liveStep,
    show jsGet [("Suite", RoomRaw.mk (some ((23 : ℚ)/5)))] "Suite" =
      some (RoomRaw.mk (some ((23 : ℚ)/5))) from rfl,
    jsSet_nil]
  norm_num [round_eq, ltInfB]
  exact ⟨rfl, rfl, rfl⟩

theorem buildLive_rec23 :
    buildLiveMonths ⟨[⟨some "Jun 2026", none, some [("Suite", ⟨some (23/5)⟩)]⟩],
        some ["Suite"]⟩ "MAN" 10 =
      .ok (some ([⟨"Jun", 2026, [("Suite", ⟨5, true, 0⟩)], 5, 5, 5, "1/1"⟩],
        ["Suite"])) := by
  rw [buildLiveMonths, if_neg (by simp)]
  simp only [show resolvedRT ⟨[⟨some "Jun 2026", none,
    some [("Suite", ⟨some ((23 : ℚ)/5)⟩)]⟩], some ["Suite"]⟩ = ["Suite"] from rfl]
  rw [if_neg (by simp)]
  rw [show mapExcept (buildLiveMonth ["Suite"] 10)
        [⟨some "Jun 2026", none, some [("Suite", ⟨some (23/5)⟩)]⟩] =
      .ok [⟨"Jun", 2026, [("Suite", ⟨5, true, 0⟩)], 5, 5, 5, "1/1"⟩] from by
    rw [mapExcept, buildLive_month23]
    rfl]
  rfl

theorem mapExcept_replicate450 :
    ∀ n : ℕ, mapExcept (buildLiveMonth ["Suite"] 7)
        (List.replicate n ⟨some "Jun 2026", none, some [("Suite", ⟨some 450⟩)]⟩) =
      .ok (List.replicate n ⟨"Jun", 2026, [("Suite", ⟨450, true, 64⟩)], 450, 450, 450, "1/1"⟩)
  | 0 => rfl
  | n + 1 => by
    rw [List.replicate_succ, List.replicate_succ, mapExcept, buildLive_month450,
      mapExcept_replicate450 n]

/-! ### C4 -/

/-- C4 (amended): the Synthetic Generator always returns exactly 12 entries,
one per calendar month starting from the current month with the year
wrapping; a non-`null` Live Normalizer result has at least 1 and at most as
many entries as the record has scraped months.  The claim's "between 0 and
12" bound for the Live Normalizer is refuted by `C4_counterexample`: no cap
of 12 is enforced. -/
theorem C4_grid_sizes :
    (∀ (hash : ℕ → ℚ) (hotel airport : String) (dur : ℕ) (board : String)
        (m0 : ℕ) (y0 : ℤ),
      (generateDemoData hash hotel airport dur board m0 y0).length = 12 ∧
      ∀ i : Fin 12,
        (entryAt (generateDemoData hash hotel airport dur board m0 y0) i.val).month =
          MONTHS.getD ((m0 + i.val) % 12) "" ∧
        (entryAt (generateDemoData hash hotel airport dur board m0 y0) i.val).year =
          y0 + (if 12 ≤ m0 + i.val then 1 else 0)) ∧
    (∀ (h : HotelRec) (ap : String) (d : ℕ) (ms : List MonthEntry)
        (rts : List String), buildLiveMonths h ap d = .ok (some (ms, rts)) →
      0 < ms.length ∧ ms.length ≤ h.months.length) := by
  constructor
  · intro hash hotel airport dur board m0 y0
    refine ⟨generateDemoData_length hash hotel airport dur board m0 y0, fun i => ?_⟩
    rw [generateDemoData_entry hash hotel airport dur board m0 y0 i.val i.isLt,
      synthMonth_month, synthMonth_year]
    exact ⟨rfl, rfl⟩
  · intro h ap d ms rts he
    rcases buildLiveMonths_ok_some h ap d ms rts he with ⟨_, hne, ms0, hme, hfil⟩
    refine ⟨List.length_pos.mpr hne, ?_⟩
    rw [hfil]
    calc (ms0.filter (fun m => decide (0 < m.cheapest))).length
        ≤ ms0.length := List.length_filter_le _ _
      _ = h.months.length := mapExcept_length _ h.months ms0 hme

/-- Witness for C4: the live bound at a concrete one-month record. -/
theorem C4_witness :
    0 < ([⟨"Jun", 2026, [("Suite", ⟨450, true, 64⟩)], 450, 450, 450, "1/1"⟩] :
        List MonthEntry).length ∧
    ([⟨"Jun", 2026, [("Suite", ⟨450, true, 64⟩)], 450, 450, 450, "1/1"⟩] :
        List MonthEntry).length ≤
      (⟨[⟨some "Jun 2026", none, some [("Suite", ⟨some 450⟩)]⟩], some ["Suite"]⟩ :
        HotelRec).months.length :=
  C4_grid_sizes.2
    ⟨[⟨some "Jun 2026", none, some [("Suite", ⟨some 450⟩)]⟩], some ["Suite"]⟩
    "MAN" 7 [⟨"Jun", 2026, [("Suite", ⟨450, true, 64⟩)], 450, 450, 450, "1/1"⟩]
    ["Suite"] buildLive_rec450

/-- Counterexample to C4 as stated: a record with 13 scraped months, all
carrying a positive Suite price, normalizes to a 13-entry grid — more than
the claimed maximum of 12. -/
theorem C4_counterexample :
    12 < liveMonthCount (buildLiveMonths
      ⟨List.replicate 13 ⟨some "Jun 2026", none, some [("Suite", ⟨some 450⟩)]⟩,
        some ["Suite"]⟩ "MAN" 7) := by
  rw [buildLiveMonths, if_neg (by simp)]
  simp only [show resolvedRT ⟨List.replicate 13 ⟨some "Jun 2026", none,
    some [("Suite", ⟨some (450 : ℚ)⟩)]⟩, some ["Suite"]⟩ = ["Suite"] from rfl]
  rw [if_neg (by simp)]
  rw [mapExcept_replicate450 13]
  decide

/-! ### C3 -/

/-- C3 (amended): in the Synthetic Generator every room satisfies
`perNight = round(price / duration)` with `price` the already-rounded
integer price field; in the Live Normalizer an available room instead
satisfies `perNight = round(price_pp / duration)` computed from the raw
scraped value (whose rounding is the `price` field) — which can differ from
`round(price / duration)`, see `C3_counterexample` — and an unavailable
room has `perNight = 0`. -/
theorem C3_perNight_consistency :
    (∀ (hash : ℕ → ℚ) (hotel airport : String) (dur : ℕ) (board : String)
        (m0 : ℕ) (y0 : ℤ) (i : Fin 12) (ri : Fin 5),
      (roomAt (generateDemoData hash hotel airport dur board m0 y0) i.val ri.val).perNight =
        round (((roomAt (generateDemoData hash hotel airport dur board m0 y0) i.val ri.val).price : ℚ) /
          (dur : ℚ))) ∧
    (∀ (h : HotelRec) (ap : String) (d : ℕ) (ms : List MonthEntry)
        (rts : List String), buildLiveMonths h ap d = .ok (some (ms, rts)) →
      ∀ e ∈ ms, ∀ kv ∈ e.rooms,
        (kv.2.available = false → kv.2.perNight = 0) ∧
        (kv.2.available = true → ∃ pp : ℚ, 0 < pp ∧ kv.2.price = round pp ∧
          kv.2.perNight = round (pp / (d : ℚ)))) := by
  constructor
  · intro hash hotel airport dur board m0 y0 i ri
    rw [roomAt, generateDemoData_entry hash hotel airport dur board m0 y0 i.val i.isLt,
      synthMonth_rooms]
    fin_cases ri <;> rfl
  · intro h ap d ms rts he e hems kv hkv
    rcases buildLiveMonths_ok_some h ap d ms rts he with ⟨_, _, ms0, hme, hfil⟩
    rw [hfil] at hems
    have hems0 := List.mem_of_mem_filter hems
    rcases mapExcept_mem _ h.months ms0 hme e hems0 with ⟨m, _, hbm⟩
    rcases buildLiveMonth_rooms_spec _ d m e hbm kv hkv with ⟨hfalse, htrue⟩
    refine ⟨fun hav => (hfalse hav).2, fun hav => ?_⟩
    rcases htrue hav with ⟨pp, c, hpp, hpr, hpn, _, _⟩
    exact ⟨pp, hpp, hpr, hpn⟩

/-- Witness for C3: the live conjunct applied to the Suite room of a
concrete normalized record. -/
theorem C3_witness :
    ((("Suite", (⟨450, true, 64⟩ : Room))).2.available = false →
      (("Suite", (⟨450, true, 64⟩ : Room))).2.perNight = 0) ∧
    ((("Suite", (⟨450, true, 64⟩ : Room))).2.available = true →
      ∃ pp : ℚ, 0 < pp ∧ (("Suite", (⟨450, true, 64⟩ : Room))).2.price = round pp ∧
        (("Suite", (⟨450, true, 64⟩ : Room))).2.perNight = round (pp / ((7 : ℕ) : ℚ))) :=
  C3_perNight_consistency.2
    ⟨[⟨some "Jun 2026", none, some [("Suite", ⟨some 450⟩)]⟩], some ["Suite"]⟩
    "MAN" 7 [⟨"Jun", 2026, [("Suite", ⟨450, true, 64⟩)], 450, 450, 450, "1/1"⟩]
    ["Suite"] buildLive_rec450
    ⟨"Jun", 2026, [("Suite", ⟨450, true, 64⟩)], 450, 450, 450, "1/1"⟩ (by simp)
    ("Suite", ⟨450, true, 64⟩) (by simp)

/-- Counterexample to C3 as stated: a scraped Suite price of `4.6` over 10
nights produces the room entry `{price := 5, perNight := 0}` (per-night is
rounded from the raw `0.46`), while `round(price / duration) =
round(5 / 10) = 1 ≠ 0`. -/
theorem C3_counterexample :
    (liveRoomAt (buildLiveMonths ⟨[⟨some "Jun 2026", none,
        some [("Suite", ⟨some (23/5)⟩)]⟩], some ["Suite"]⟩ "MAN" 10) 0 0).available = true ∧
    (liveRoomAt (buildLiveMonths ⟨[⟨some "Jun 2026", none,
        some [("Suite", ⟨some (23/5)⟩)]⟩], some ["Suite"]⟩ "MAN" 10) 0 0).perNight = 0 ∧
    round (((liveRoomAt (buildLiveMonths ⟨[⟨some "Jun 2026", none,
        some [("Suite", ⟨some (23/5)⟩)]⟩], some ["Suite"]⟩ "MAN" 10) 0 0).price : ℚ) /
      (10 : ℚ)) = 1 := by
  rw [buildLive_rec23]
  refine ⟨rfl, rfl, ?_⟩
  norm_num [liveRoomAt, roomAt, entryAt, round_eq]

/-! ### C5 -/

theorem buildLiveMonth_avg_shape (rt : List String) (d : ℕ) (m : MonthRec)
    (e : MonthEntry) (he : buildLiveMonth rt d m = .ok e) :
    e.avgPrice = round
      (((((e.rooms.map (fun kv => kv.2)).filter
           (fun r => decide (0 < r.price))).map (fun r => r.price)).sum : ℤ) /
       (max ((e.rooms.map (fun kv => kv.2)).filter
           (fun r => decide (0 < r.price))).length 1 : ℕ) : ℚ) := by
  cases hm : m.rooms with
  | none =>
    rw [buildLiveMonth, hm] at he
    exact absurd he (by simp)
  | some roomsMap =>
    rw [buildLiveMonth, hm] at he
    simp only [Except.ok.injEq] at he
    subst he
    rfl

/-- C5: the Synthetic Generator averages ALL room prices (denominator: the
number of room types), while the Live Normalizer averages only available
room prices (denominator guarded to at least 1): the asymmetry is real. -/
theorem C5_avg_asymmetry :
    (∀ (hash : ℕ → ℚ) (hotel airport : String) (dur : ℕ) (board : String)
        (m0 : ℕ) (y0 : ℤ) (i : Fin 12),
      (entryAt (generateDemoData hash hotel airport dur board m0 y0) i.val).avgPrice =
        round (((((entryAt (generateDemoData hash hotel airport dur board m0 y0) i.val).rooms.map
            (fun kv => kv.2.price)).sum : ℤ) : ℚ) / (ROOM_TYPES.length : ℚ))) ∧
    (∀ (h : HotelRec) (ap : String) (d : ℕ) (ms : List MonthEntry)
        (rts : List String), buildLiveMonths h ap d = .ok (some (ms, rts)) →
      ∀ e ∈ ms,
        e.avgPrice = round
          (((((e.rooms.map (fun kv => kv.2)).filter
               (fun r => r.available)).map (fun r => r.price)).sum : ℤ) /
           (max ((e.rooms.map (fun kv => kv.2)).filter
               (fun r => r.available)).length 1 : ℕ) : ℚ)) := by
  constructor
  · intro hash hotel airport dur board m0 y0 i
    rw [generateDemoData_entry hash hotel airport dur board m0 y0 i.val i.isLt]
    rfl
  · intro h ap d ms rts he e hems
    rcases buildLiveMonths_ok_some h ap d ms rts he with ⟨_, _, ms0, hme, hfil⟩
    rw [hfil] at hems
    have hch : 0 < e.cheapest := by
      have := List.of_mem_filter hems
      simpa using this
    have hems0 := List.mem_of_mem_filter hems
    rcases mapExcept_mem _ h.months ms0 hme e hems0 with ⟨m, _, hbm⟩
    have hcong : (e.rooms.map (fun kv => kv.2)).filter (fun r => decide (0 < r.price)) =
        (e.rooms.map (fun kv => kv.2)).filter (fun r => r.available) := by
      apply List.filter_congr
      intro r hr
      rcases List.mem_map.mp hr with ⟨kv, hkv, hrkv⟩
      rcases buildLiveMonth_rooms_spec _ d m e hbm kv hkv with ⟨hfalse, htrue⟩
      cases hav : kv.2.available with
      | false =>
        rw [← hrkv]
        simp [(hfalse hav).1, hav]
      | true =>
        rcases htrue hav with ⟨pp, c, _, hpr, _, hche, hcpp⟩
        have h1 : round c ≤ round pp := by
          rw [round_eq, round_eq]
          exact Int.floor_le_floor (by linarith)
        have h2 : 0 < kv.2.price := by
          rw [hche] at hch
          rw [hpr]
          linarith
        rw [← hrkv]
        simp [h2, hav]
    rw [buildLiveMonth_avg_shape _ d m e hbm, hcong]

/-- Witness for C5: the live conjunct at a concrete normalized record. -/
theorem C5_witness :
    (⟨"Jun", 2026, [("Suite", ⟨450, true, 64⟩)], 450, 450, 450, "1/1"⟩ :
        MonthEntry).avgPrice =
      round ((((((⟨"Jun", 2026, [("Suite", ⟨450, true, 64⟩)], 450, 450, 450, "1/1"⟩ :
            MonthEntry).rooms.map (fun kv => kv.2)).filter
           (fun r => r.available)).map (fun r => r.price)).sum : ℤ) /
       (max (((⟨"Jun", 2026, [("Suite", ⟨450, true, 64⟩)], 450, 450, 450, "1/1"⟩ :
            MonthEntry).rooms.map (fun kv => kv.2)).filter
           (fun r => r.available)).length 1 : ℕ) : ℚ) :=
  C5_avg_asymmetry.2
    ⟨[⟨some "Jun 2026", none, some [("Suite", ⟨some 450⟩)]⟩], some ["Suite"]⟩
    "MAN" 7 [⟨"Jun", 2026, [("Suite", ⟨450, true, 64⟩)], 450, 450, 450, "1/1"⟩]
    ["Suite"] buildLive_rec450
    ⟨"Jun", 2026, [("Suite", ⟨450, true, 64⟩)], 450, 450, 450, "1/1"⟩ (by simp)

/-! ### C6 -/

theorem foldl_add_toNat (l : List Char) :
    ∀ n : ℕ, l.foldl (fun a c => a + c.toNat) n = n + (l.map Char.toNat).sum := by
  induction l with
  | nil => intro n; simp
  | cons c t ih =>
    intro n
    simp only [List.foldl_cons, List.map_cons, List.sum_cons, ih]
    omega

theorem seedOf_eq_specSeed (hotel airport : String) (dur : ℕ) (board : String) :
    seedOf hotel airport dur board = specSeed hotel airport dur board := by
  rw [seedOf, specSeed, foldl_add_toNat]
  omega

theorem rngOf_sinHash (s j : ℕ) : rngOf sinHash s j = specRand s j := by
  rw [rngOf, sinHash, specRand]
  push_cast
  rfl

/-- C6: every synthetic room price is exactly
`round(base * sm[mi] * dm * bm * rm * (0.95 + rand(i*10+ri) * 0.1))` with
`base = 400 + rand(1)*600`, seed the character-code sum of the concatenated
inputs, and `rand(i) = frac(sin(seed+i) * 10000)` — over idealized real
arithmetic. -/
theorem C6_price_formula (hotel airport : String) (dur : ℕ) (board : String)
    (m0 : ℕ) (y0 : ℤ) (i : Fin 12) (ri : Fin 5) :
    (roomAt (generateDemoData sinHash hotel airport dur board m0 y0) i.val ri.val).price =
      round ((400 + specRand (specSeed hotel airport dur board) 1 * 600) *
        ((seasonalMult.getD ((m0 + i.val) % 12) 0 : ℚ) : ℝ) *
        ((durMult dur : ℚ) : ℝ) * ((boardMult board : ℚ) : ℝ) *
        ((roomMult (ROOM_TYPES.getD ri.val "") : ℚ) : ℝ) *
        (0.95 + specRand (specSeed hotel airport dur board)
          (i.val * 10 + ri.val) * 0.1)) := by
  rw [roomAt, generateDemoData_entry sinHash hotel airport dur board m0 y0 i.val i.isLt,
    synthMonth_rooms]
  fin_cases ri <;>
    simp only [List.getD_cons_zero, List.getD_cons_succ, synthRoom, synthPrice,
      jitterIdx, rngOf_sinHash, seedOf_eq_specSeed,
      show (0.95 : ℝ) = 95/100 by norm_num, show (0.1 : ℝ) = 1/10 by norm_num,
      show ROOM_TYPES.getD 0 "" = "Standard Double" from rfl,
      show ROOM_TYPES.getD 1 "" = "Superior Double" from rfl,
      show ROOM_TYPES.getD 2 "" = "Family Room" from rfl,
      show ROOM_TYPES.getD 3 "" = "Suite" from rfl,
      show ROOM_TYPES.getD 4 "" = "Sea View Double" from rfl]

/-! ### C9 -/

/-- C9: every outcome of the one-shot startup fetch resolves the live-data
status to exactly `ok` or `noData` (never left at `loading`), and it is `ok`
precisely for a parsed artifact with a nonempty hotel list — every failure
and the empty/missing-list case collapse to the single `noData` state. -/
theorem C9_fetch_status_resolves (o : FetchOutcome) :
    resolveStatus o ≠ LiveStatus.loading ∧
      (resolveStatus o = LiveStatus.ok ↔
        ∃ hs : List HotelRec, o = .fetched ⟨some hs⟩ ∧ hs ≠ []) := by
  cases o with
  | networkError => simp [resolveStatus]
  | nonOkStatus => simp [resolveStatus]
  | parseError => simp [resolveStatus]
  | fetched d =>
    cases d with
    | mk hotels =>
      cases hotels with
      | none => simp [resolveStatus]
      | some l =>
        by_cases hl : l = []
        · subst hl
          simp [resolveStatus]
        · have hlen : l.length ≠ 0 := by simpa using hl
          simp [resolveStatus, hlen, hl]

end Jet2
